import Mathlib

/-!
Verification of the annotator launcher script (`src/analysis/annotator.py`).

The script is a thin launcher: it computes a few path constants, ensures an
output directory exists, writes a one-line `paths.tsv` configuration file into
it, assembles a fixed command line and spawns the external annotator tool.

The shallow embedding below models:
* Python's `str.format` with positional `\x7b\x7d` placeholders (`pyFormat`);
* the path constants `REPO`, `OUT_DIR`, `ANNOTATOR_JAR`;
* the filesystem as a record of existing directories, regular files with
  contents, and permission-denied paths (`FS`), with `makedirs`
  (`exist_ok=True`) and create-or-truncate `writeFile`;
* `prepare` and `run_annotator`, instrumented with an event trace so that
  ordering properties (prepare before spawn) can be stated;
* the external process as an oracle `spawn : List String → Except Err Nat`
  returning either a spawn failure or the child's exit code, mirroring
  `subprocess.call`.
-/

/-- The character `\x7b`, written by code point to keep it out of string
literals. -/
def lbrace : Char := Char.ofNat 123

/-- The character `\x7d`, written by code point. -/
def rbrace : Char := Char.ofNat 125

/-- Core of `pyFormat`: substitute each positional placeholder (an `\x7b`
immediately followed by `\x7d`) with the next argument. Unpaired braces are
kept literally (every template in the launcher is well formed, and Python
ignores surplus arguments, which this models by simply not consuming them). -/
def fmtAux : List Char → List String → List Char
  | [], _ => []
  | [c], _ => [c]
  | c :: d :: rest, args =>
    if c == lbrace && d == rbrace then
      match args with
      | a :: args2 => a.data ++ fmtAux rest args2
      | [] => fmtAux rest []
    else
      c :: fmtAux (d :: rest) args

/-- Python's `template.format(*args)` with positional placeholders, as used by
the launcher. -/
def pyFormat (t : String) (args : List String) : String :=
  String.mk (fmtAux t.data args)

/-- The string rendering of an absolute, resolved filesystem path given by its
components: `pathStr ["a", "b"] = "/a/b"`, `pathStr [] = "/"`. This models
Python's `str(Path(...))` for the resolved script location. -/
def pathStr (comps : List String) : String :=
  "/" ++ String.intercalate "/" comps

/-- `REPO = str(Path(__file__).resolve().parents[1])`: the directory one level
above the parent directory of the resolved script location, i.e. the resolved
script path with its last two components dropped. -/
def REPO (script : List String) : String :=
  pathStr (script.dropLast.dropLast)

/-- `OUT_DIR = '\x7b\x7d/annotator-out'.format(REPO)`, parametrised by the value of
the `REPO` constant. -/
def OUT_DIR (R : String) : String :=
  pyFormat "\x7b\x7d/annotator-out" [R]

/-- `ANNOTATOR_JAR = "/var/core.jar".format(str(Path.home()))`: the template
contains no placeholder, so the home-directory argument is ignored by
`format`. Parametrised by the home directory to make that provable. -/
def ANNOTATOR_JAR (home : String) : String :=
  pyFormat "/var/core.jar" [home]

/-- The path `'\x7b\x7d/paths.tsv'.format(OUT_DIR)` that `prepare` writes and that
is passed after `-cp`. -/
def tsvPath (R : String) : String :=
  pyFormat "\x7b\x7d/paths.tsv" [OUT_DIR R]

/-- The path `'\x7b\x7d/checker.xml'.format(OUT_DIR)`. -/
def checkerPath (R : String) : String :=
  pyFormat "\x7b\x7d/checker.xml" [OUT_DIR R]

/-- The path `'\x7b\x7d/scanner.xml'.format(OUT_DIR)`. -/
def scannerPath (R : String) : String :=
  pyFormat "\x7b\x7d/scanner.xml" [OUT_DIR R]

/-- The single line `"\x7b\x7d\t\x7b\x7d\n".format(checker, scanner)` written into
`paths.tsv`. -/
def tsvLine (R : String) : String :=
  pyFormat "\x7b\x7d\t\x7b\x7d\n" [checkerPath R, scannerPath R]

/-- The build command string `'cd \x7b\x7d && ./build.sh'.format(REPO)` passed after
`-bc`. -/
def buildCmd (R : String) : String :=
  pyFormat "cd \x7b\x7d && ./build.sh" [R]

/-- Errors the launcher's primitives can raise: permission denial on a path,
`makedirs` colliding with an existing non-directory file, and process-spawn
failure (e.g. the executable is missing). -/
inductive Err where
  | permission (p : String)
  | fileCollision (p : String)
  | spawnFailure (msg : String)
  deriving Repr, DecidableEq

/-- Filesystem state: the set of existing directories, the regular files with
their contents, and the paths on which creation or writing is denied by
permissions. -/
structure FS where
  dirs : List String
  files : List (String × String)
  denied : List String
  deriving Repr, DecidableEq

/-- Whether `p` exists as a directory. -/
def dirExists (fs : FS) (p : String) : Bool :=
  fs.dirs.contains p

/-- Whether `p` exists as a regular file. -/
def isFile (fs : FS) (p : String) : Bool :=
  fs.files.any (fun x => x.1 == p)

/-- The content of the regular file at `p`, if any. -/
def fileContent (fs : FS) (p : String) : Option String :=
  (fs.files.find? (fun x => x.1 == p)).map (fun x => x.2)

/-- Replace (or create) the entry for `p` in a file map. -/
def setFile (p c : String) (files : List (String × String)) :
    List (String × String) :=
  (p, c) :: files.filter (fun x => x.1 != p)

/-- `os.makedirs(p, exist_ok=True)`: succeeds without change if `p` already is
a directory; fails if `p` collides with a non-directory file or creation is
denied by permissions; otherwise records the directory. -/
def makedirs (p : String) (fs : FS) : Except Err FS :=
  if dirExists fs p then Except.ok fs
  else if isFile fs p then Except.error (Err.fileCollision p)
  else if fs.denied.contains p then Except.error (Err.permission p)
  else Except.ok { fs with dirs := p :: fs.dirs }

/-- `open(p, 'w')` followed by a single `write`: create-or-truncate, so the
resulting content is exactly `c` whatever was there before; fails only when
writing `p` is denied by permissions. -/
def writeFile (p c : String) (fs : FS) : Except Err FS :=
  if fs.denied.contains p then Except.error (Err.permission p)
  else Except.ok { fs with files := setFile p c fs.files }

/-- Observable events of one launcher run, used to state ordering properties. -/
inductive Event where
  | mkdirEv (p : String)
  | writeEv (p c : String)
  | spawnEv (args : List String)
  deriving Repr, DecidableEq

/-- `prepare()`: `os.makedirs(OUT_DIR, exist_ok=True)` then write the single
line `tsvLine` into `OUT_DIR/paths.tsv`. Returns the resulting filesystem (or
the first error, unhandled) together with the trace of completed filesystem
events. -/
def prepare (R : String) (fs : FS) : Except Err FS × List Event :=
  match makedirs (OUT_DIR R) fs with
  | Except.error e => (Except.error e, [])
  | Except.ok fs1 =>
    match writeFile (tsvPath R) (tsvLine R) fs1 with
    | Except.error e => (Except.error e, [Event.mkdirEv (OUT_DIR R)])
    | Except.ok fs2 =>
      (Except.ok fs2,
        [Event.mkdirEv (OUT_DIR R), Event.writeEv (tsvPath R) (tsvLine R)])

/-- The argument list assembled by `run_annotator`, mirroring the successive
`commands += [...]` lines of the source (the commented-out optional flags
contribute nothing). -/
def commands (R home : String) : List String :=
  ["java", "-jar", ANNOTATOR_JAR home]
    ++ ["-d", OUT_DIR R]
    ++ ["-bc", buildCmd R]
    ++ ["-cp", tsvPath R]
    ++ ["-i", "edu.Initializer"]
    ++ ["-n", "com.example.x.ucrtainting.qual.RUntainted"]
    ++ ["-cn", "UCRTaint"]
    ++ ["--depth", "25"]

/-- The optional flags that appear only in commented-out lines of the source:
available toggles, disabled by default. -/
def disabledFlags : List String :=
  ["-rboserr", "-ch", "-dc", "-dol", "--disable-parallel-processing"]

/-- `run_annotator()`: call `prepare` first, then `subprocess.call(commands)`.
The spawn oracle returns either a spawn failure or the child's exit code; the
exit code is dropped, mirroring that the Python function neither inspects the
return value of `subprocess.call` nor returns anything itself. Errors from
`prepare` or from the spawn propagate unhandled. -/
def run_annotator (R home : String) (fs : FS)
    (spawn : List String → Except Err Nat) : Except Err FS × List Event :=
  match prepare R fs with
  | (Except.error e, tr) => (Except.error e, tr)
  | (Except.ok fs1, tr) =>
    match spawn (commands R home) with
    | Except.error e => (Except.error e, tr)
    | Except.ok _code =>
      (Except.ok fs1, tr ++ [Event.spawnEv (commands R home)])

/-! ### Basic facts about the path constants -/

theorem ANNOTATOR_JAR_eq (home : String) : ANNOTATOR_JAR home = "/var/core.jar" := rfl

theorem OUT_DIR_eq (R : String) : OUT_DIR R = R ++ "/annotator-out" := rfl

theorem tsvPath_eq (R : String) : tsvPath R = OUT_DIR R ++ "/paths.tsv" := rfl

theorem checkerPath_eq (R : String) : checkerPath R = OUT_DIR R ++ "/checker.xml" := rfl

theorem scannerPath_eq (R : String) : scannerPath R = OUT_DIR R ++ "/scanner.xml" := rfl

theorem buildCmd_eq (R : String) : buildCmd R = "cd " ++ (R ++ " && ./build.sh") := rfl

theorem tsvLine_eq (R : String) :
    tsvLine R = checkerPath R ++ ("\t" ++ (scannerPath R ++ "\n")) := rfl

/-! ### String helpers -/

/-- Whether the first list is an initial segment of the second. -/
def listStarts : List Char → List Char → Bool
  | [], _ => true
  | _ :: _, [] => false
  | a :: p2, b :: s2 => a == b && listStarts p2 s2

/-- Whether `s` starts with `p`. -/
def strStarts (p s : String) : Bool :=
  listStarts p.data s.data

/-- Whether `s` ends with `t`. -/
def strEnds (t s : String) : Bool :=
  listStarts t.data.reverse s.data.reverse

theorem listStarts_append (p m : List Char) : listStarts p (p ++ m) = true := by
  induction p with
  | nil => rfl
  | cons a p2 ih => simp [listStarts, ih]

theorem strStarts_append (p m : String) : strStarts p (p ++ m) = true := by
  rw [strStarts, String.data_append]
  exact listStarts_append p.data m.data

theorem strEnds_append (s t : String) : strEnds t (s ++ t) = true := by
  rw [strEnds, String.data_append, List.reverse_append]
  exact listStarts_append t.data.reverse s.data.reverse

theorem strAppend_assoc (a b c : String) : a ++ b ++ c = a ++ (b ++ c) := by
  apply String.ext
  simp [String.data_append]

theorem append_ne_of_strEnds_false {t f : String} (s : String)
    (h : strEnds t f = false) : s ++ t ≠ f := by
  intro he
  have htrue := strEnds_append s t
  rw [he, h] at htrue
  exact Bool.noConfusion htrue

/-! ### The assembled command line, explicitly -/

theorem tsvPath_flat (R : String) : tsvPath R = R ++ "/annotator-out/paths.tsv" := by
  rw [tsvPath_eq, OUT_DIR_eq, strAppend_assoc]
  rfl

theorem commands_explicit (R home : String) :
    commands R home =
      ["java", "-jar", "/var/core.jar",
       "-d", R ++ "/annotator-out",
       "-bc", "cd " ++ R ++ " && ./build.sh",
       "-cp", R ++ "/annotator-out/paths.tsv",
       "-i", "edu.Initializer",
       "-n", "com.example.x.ucrtainting.qual.RUntainted",
       "-cn", "UCRTaint",
       "--depth", "25"] := by
  rw [commands, ANNOTATOR_JAR_eq, OUT_DIR_eq, buildCmd_eq, tsvPath_flat,
    ← strAppend_assoc]
  rfl

theorem not_mem_commands_of_ends (R home f : String)
    (h1 : strEnds "/annotator-out" f = false)
    (h2 : strEnds " && ./build.sh" f = false)
    (h3 : strEnds "/annotator-out/paths.tsv" f = false)
    (h4 : (["java", "-jar", "/var/core.jar", "-d", "-bc", "-cp", "-i",
            "edu.Initializer", "-n", "com.example.x.ucrtainting.qual.RUntainted",
            "-cn", "UCRTaint", "--depth", "25"].contains f) = false) :
    f ∉ commands R home := by
  rw [commands_explicit]
  intro hmem
  simp only [List.mem_cons, List.not_mem_nil, or_false] at hmem
  rcases hmem with h | h | h | h | h | h | h | h | h | h | h | h | h | h | h | h | h
  · rw [h] at h4; exact absurd h4 (by decide)
  · rw [h] at h4; exact absurd h4 (by decide)
  · rw [h] at h4; exact absurd h4 (by decide)
  · rw [h] at h4; exact absurd h4 (by decide)
  · exact append_ne_of_strEnds_false R h1 h.symm
  · rw [h] at h4; exact absurd h4 (by decide)
  · exact append_ne_of_strEnds_false ("cd " ++ R) h2 h.symm
  · rw [h] at h4; exact absurd h4 (by decide)
  · exact append_ne_of_strEnds_false R h3 h.symm
  · rw [h] at h4; exact absurd h4 (by decide)
  · rw [h] at h4; exact absurd h4 (by decide)
  · rw [h] at h4; exact absurd h4 (by decide)
  · rw [h] at h4; exact absurd h4 (by decide)
  · rw [h] at h4; exact absurd h4 (by decide)
  · rw [h] at h4; exact absurd h4 (by decide)
  · rw [h] at h4; exact absurd h4 (by decide)
  · rw [h] at h4; exact absurd h4 (by decide)

/-! ### Facts about the filesystem primitives -/

theorem makedirs_ok_parts {p : String} {fs fs1 : FS}
    (h : makedirs p fs = Except.ok fs1) :
    dirExists fs1 p = true ∧ fs1.files = fs.files ∧ fs1.denied = fs.denied := by
  unfold makedirs at h
  split_ifs at h with h1 h2 h3
  · injection h with hh
    subst hh
    exact ⟨h1, rfl, rfl⟩
  · injection h with hh
    subst hh
    refine ⟨?_, rfl, rfl⟩
    simp [dirExists]

theorem writeFile_ok_parts {p c : String} {fs fs1 : FS}
    (h : writeFile p c fs = Except.ok fs1) :
    fs1.dirs = fs.dirs ∧ fs1.denied = fs.denied
      ∧ fs1.files = setFile p c fs.files ∧ fs.denied.contains p = false := by
  unfold writeFile at h
  split_ifs at h with h1
  injection h with hh
  subst hh
  exact ⟨rfl, rfl, rfl, by simpa using h1⟩

theorem find?_setFile_self (p c : String) (l : List (String × String)) :
    (setFile p c l).find? (fun x => x.1 == p) = some (p, c) := by
  simp [setFile, List.find?]

theorem find?_filter_ne (p q : String) (hne : q ≠ p)
    (l : List (String × String)) :
    (l.filter (fun x => x.1 != p)).find? (fun x => x.1 == q) =
      l.find? (fun x => x.1 == q) := by
  induction l with
  | nil => rfl
  | cons a l ih =>
    by_cases hp : a.1 = p
    · have hq : (a.1 == q) = false := by
        rw [hp]
        exact beq_eq_false_iff_ne.mpr (Ne.symm hne)
      have hpq : (p == q) = false := beq_eq_false_iff_ne.mpr (Ne.symm hne)
      simp [List.filter_cons, hp, List.find?_cons, hq, hpq, ih]
    · by_cases hq : a.1 = q
      · simp [List.filter_cons, hp, List.find?_cons, hq, hne]
      · simp [List.filter_cons, hp, List.find?_cons, hq, hne, ih]

theorem find?_setFile_other (p q c : String) (hne : q ≠ p)
    (l : List (String × String)) :
    (setFile p c l).find? (fun x => x.1 == q) = l.find? (fun x => x.1 == q) := by
  rw [setFile, List.find?_cons_of_neg, find?_filter_ne p q hne l]
  intro hcontra
  exact hne (eq_of_beq hcontra).symm

theorem setFile_idem (p c : String) (l : List (String × String)) :
    setFile p c (setFile p c l) = setFile p c l := by
  simp only [setFile]
  rw [List.filter_cons]
  simp [List.filter_filter]

/-! ### Decomposition of successful `prepare` runs -/

theorem prepare_ok_parts {R : String} {fs fs1 : FS} {tr : List Event}
    (h : prepare R fs = (Except.ok fs1, tr)) :
    ∃ fsm, makedirs (OUT_DIR R) fs = Except.ok fsm
      ∧ writeFile (tsvPath R) (tsvLine R) fsm = Except.ok fs1
      ∧ tr = [Event.mkdirEv (OUT_DIR R), Event.writeEv (tsvPath R) (tsvLine R)] := by
  unfold prepare at h
  split at h
  · simp at h
  next fsm heqm =>
    split at h
    · simp at h
    next fs2 heqw =>
      injection h with h1 h2
      injection h1 with h3
      subst h3
      exact ⟨fsm, heqm, heqw, h2.symm⟩

theorem prepare_ok_facts {R : String} {fs fs1 : FS} {tr : List Event}
    (h : prepare R fs = (Except.ok fs1, tr)) :
    dirExists fs1 (OUT_DIR R) = true
    ∧ fileContent fs1 (tsvPath R) = some (tsvLine R)
    ∧ (∀ q, q ≠ tsvPath R → fileContent fs1 q = fileContent fs q)
    ∧ fs1.denied = fs.denied
    ∧ fs1.files = setFile (tsvPath R) (tsvLine R) fs.files
    ∧ fs.denied.contains (tsvPath R) = false
    ∧ tr = [Event.mkdirEv (OUT_DIR R), Event.writeEv (tsvPath R) (tsvLine R)] := by
  obtain ⟨fsm, hm, hw, htr⟩ := prepare_ok_parts h
  obtain ⟨hdm, hfm, hnm⟩ := makedirs_ok_parts hm
  obtain ⟨hdw, hnw, hfw, hcw⟩ := writeFile_ok_parts hw
  refine ⟨?_, ?_, ?_, ?_, ?_, ?_, htr⟩
  · unfold dirExists at hdm ⊢
    rw [hdw]
    exact hdm
  · rw [fileContent, hfw, find?_setFile_self]
    rfl
  · intro q hq
    rw [fileContent, fileContent, hfw, find?_setFile_other _ _ _ hq, hfm]
  · rw [hnw, hnm]
  · rw [hfw, hfm]
  · rw [← hnm]
    exact hcw

/-! ### Concrete states used by witnesses and counterexamples -/

/-- The empty filesystem: fresh checkout, no output directory yet. -/
def fsEmpty : FS := ⟨[], [], []⟩

/-- The filesystem produced by running `prepare` with `REPO = "/r"` on
`fsEmpty`. -/
def fs1Demo : FS :=
  ⟨["/r/annotator-out"],
   [("/r/annotator-out/paths.tsv",
     "/r/annotator-out/checker.xml\t/r/annotator-out/scanner.xml\n")], []⟩

/-- The trace of a successful `prepare` run with `REPO = "/r"`. -/
def trDemo : List Event :=
  [Event.mkdirEv "/r/annotator-out",
   Event.writeEv "/r/annotator-out/paths.tsv"
     "/r/annotator-out/checker.xml\t/r/annotator-out/scanner.xml\n"]

/-- An output directory that already exists and holds an unrelated file. -/
def fsJunk : FS :=
  ⟨["/r/annotator-out"], [("/r/annotator-out/junk", "keep")], []⟩

/-- The filesystem produced by running `prepare` with `REPO = "/r"` on
`fsJunk`. -/
def fs1Junk : FS :=
  ⟨["/r/annotator-out"],
   [("/r/annotator-out/paths.tsv",
     "/r/annotator-out/checker.xml\t/r/annotator-out/scanner.xml\n"),
    ("/r/annotator-out/junk", "keep")], []⟩

/-- A filesystem where creating the output directory is permission-denied. -/
def fsDenied : FS := ⟨[], [], ["/r/annotator-out"]⟩

/-- A filesystem where a regular file occupies the output directory's path. -/
def fsCollide : FS := ⟨[], [("/r/annotator-out", "oops")], []⟩

/-- A filesystem where the output directory already exists (and nothing
else). -/
def fsHasDir : FS := ⟨["/r/annotator-out"], [], []⟩

/-! ### Claims -/

/-- **C1.** For every run with a fixed repository root `R` and the fixed
archive path, the argument list assembled by `run_annotator` and passed to the
process-spawn call equals exactly, in order, `[java, -jar, ANNOTATOR_JAR, -d,
R/annotator-out, -bc, "cd R && ./build.sh", -cp, R/annotator-out/paths.tsv,
-i, edu.Initializer, -n, com.example.x.ucrtainting.qual.RUntainted, -cn,
UCRTaint, --depth, 25]`, and contains none of the disabled optional flags. -/
theorem claim_C1_command_list (R home : String) :
    commands R home =
      ["java", "-jar", ANNOTATOR_JAR home,
       "-d", R ++ "/annotator-out",
       "-bc", "cd " ++ R ++ " && ./build.sh",
       "-cp", R ++ "/annotator-out/paths.tsv",
       "-i", "edu.Initializer",
       "-n", "com.example.x.ucrtainting.qual.RUntainted",
       "-cn", "UCRTaint",
       "--depth", "25"]
    ∧ ∀ f ∈ disabledFlags, f ∉ commands R home := by
  constructor
  · rw [commands_explicit R home, ANNOTATOR_JAR_eq]
  · intro f hf
    simp only [disabledFlags, List.mem_cons, List.not_mem_nil, or_false] at hf
    rcases hf with rfl | rfl | rfl | rfl | rfl <;>
      exact not_mem_commands_of_ends R home _ (by decide) (by decide) (by decide)
        (by decide)

/-- Witness for C1: the parallel-processing flag is a disabled flag and is
absent from a concrete assembled command line. -/
theorem claim_C1_command_list_witness :
    "--disable-parallel-processing" ∈ disabledFlags
    ∧ "--disable-parallel-processing" ∉ commands "/r" "/home/u" :=
  ⟨by decide, (claim_C1_command_list "/r" "/home/u").2 _ (by decide)⟩

/-- **C3.** `prepare` is idempotent: after a successful run producing `fs1`,
running it again returns `fs1` unchanged with the same trace, and the content
of `paths.tsv` is the fixed line, independent of any previous content. -/
theorem claim_C3_prepare_idempotent (R : String) (fs fs1 : FS) (tr : List Event)
    (h : prepare R fs = (Except.ok fs1, tr)) :
    prepare R fs1 = (Except.ok fs1, tr)
    ∧ fileContent fs1 (tsvPath R) = some (tsvLine R) := by
  obtain ⟨hd, hc, _, hdn, hfl, hcont, htr⟩ := prepare_ok_facts h
  refine ⟨?_, hc⟩
  have hm1 : makedirs (OUT_DIR R) fs1 = Except.ok fs1 := by
    simp [makedirs, hd]
  have hw1 : writeFile (tsvPath R) (tsvLine R) fs1 = Except.ok fs1 := by
    simp only [writeFile, hdn, hcont]
    rw [if_neg (by simp)]
    rw [hfl, setFile_idem, ← hfl, ← hdn]
  simp [prepare, hm1, hw1, htr]

/-- Witness for C3 at the empty filesystem with `REPO = "/r"`. -/
theorem claim_C3_prepare_idempotent_witness :
    prepare "/r" fsEmpty = (Except.ok fs1Demo, trDemo)
    ∧ (prepare "/r" fs1Demo = (Except.ok fs1Demo, trDemo)
       ∧ fileContent fs1Demo (tsvPath "/r") = some (tsvLine "/r")) :=
  ⟨rfl, claim_C3_prepare_idempotent "/r" fsEmpty fs1Demo trDemo rfl⟩

/-- **C5.** `run_annotator` returns no value derived from the child's exit
code: its entire result (final state, error status and trace) is the same
whatever exit code the spawned process returns. -/
theorem claim_C5_exit_code_ignored (R home : String) (fs : FS) (c c2 : Nat) :
    run_annotator R home fs (fun _ => Except.ok c)
      = run_annotator R home fs (fun _ => Except.ok c2) := by
  unfold run_annotator
  rcases hp : prepare R fs with ⟨res, tr⟩
  cases res <;> rfl

/-- **C7.** The launcher's outputs are independent of the environment: the
archive-path constant (whose `format` call discards the home directory), the
assembled argument list, and the whole run are identical for any two home
directories, and `prepare` does not even take the environment as an input. -/
theorem claim_C7_env_independent (R home1 home2 : String) (fs : FS)
    (spawn : List String → Except Err Nat) :
    ANNOTATOR_JAR home1 = ANNOTATOR_JAR home2
    ∧ ANNOTATOR_JAR home1 = "/var/core.jar"
    ∧ commands R home1 = commands R home2
    ∧ run_annotator R home1 fs spawn = run_annotator R home2 fs spawn := by
  have hc : commands R home1 = commands R home2 := by
    rw [commands_explicit, commands_explicit]
  refine ⟨rfl, rfl, hc, ?_⟩
  unfold run_annotator
  rw [hc]

/-- **C8.** When the output directory already holds unrelated files, `prepare`
leaves every file other than `paths.tsv` unchanged and writes only
`paths.tsv`. -/
theorem claim_C8_prepare_frame (R : String) (fs fs1 : FS) (tr : List Event)
    (h : prepare R fs = (Except.ok fs1, tr)) :
    (∀ q, q ≠ tsvPath R → fileContent fs1 q = fileContent fs q)
    ∧ fileContent fs1 (tsvPath R) = some (tsvLine R) := by
  obtain ⟨_, hc, hframe, _⟩ := prepare_ok_facts h
  exact ⟨hframe, hc⟩

/-- Witness for C8: the unrelated file `junk` keeps its content across
`prepare`. -/
theorem claim_C8_prepare_frame_witness :
    prepare "/r" fsJunk = (Except.ok fs1Junk, trDemo)
    ∧ fileContent fs1Junk "/r/annotator-out/junk"
        = fileContent fsJunk "/r/annotator-out/junk" :=
  ⟨rfl,
   (claim_C8_prepare_frame "/r" fsJunk fs1Junk trDemo rfl).1 _ (by decide)⟩

/-- **C9.** Directory creation is idempotent and total on the already-exists
case: if the output directory exists, `makedirs` returns the state unchanged
with no error; an error arises only from a collision with a non-directory
file or from denied permissions. -/
theorem claim_C9_makedirs_total (R : String) (fs : FS) :
    (dirExists fs (OUT_DIR R) = true → makedirs (OUT_DIR R) fs = Except.ok fs)
    ∧ (∀ e, makedirs (OUT_DIR R) fs = Except.error e →
        dirExists fs (OUT_DIR R) = false
        ∧ ((isFile fs (OUT_DIR R) = true ∧ e = Err.fileCollision (OUT_DIR R))
           ∨ (fs.denied.contains (OUT_DIR R) = true
              ∧ e = Err.permission (OUT_DIR R)))) := by
  constructor
  · intro hd
    simp [makedirs, hd]
  · intro e he
    unfold makedirs at he
    by_cases h1 : dirExists fs (OUT_DIR R) = true
    · rw [if_pos h1] at he
      exact absurd he (by simp)
    · rw [if_neg h1] at he
      have h1f : dirExists fs (OUT_DIR R) = false := by simpa using h1
      by_cases h2 : isFile fs (OUT_DIR R) = true
      · rw [if_pos h2] at he
        injection he with he2
        exact ⟨h1f, Or.inl ⟨h2, he2.symm⟩⟩
      · rw [if_neg h2] at he
        by_cases h3 : fs.denied.contains (OUT_DIR R) = true
        · rw [if_pos h3] at he
          injection he with he2
          exact ⟨h1f, Or.inr ⟨h3, he2.symm⟩⟩
        · rw [if_neg h3] at he
          exact absurd he (by simp)

/-- Witness for C9: the already-exists case succeeds unchanged, and a
non-directory collision yields exactly the collision error. -/
theorem claim_C9_makedirs_total_witness :
    makedirs (OUT_DIR "/r") fsHasDir = Except.ok fsHasDir
    ∧ (dirExists fsCollide (OUT_DIR "/r") = false
       ∧ ((isFile fsCollide (OUT_DIR "/r") = true
           ∧ Err.fileCollision "/r/annotator-out" = Err.fileCollision (OUT_DIR "/r"))
          ∨ (fsCollide.denied.contains (OUT_DIR "/r") = true
             ∧ Err.fileCollision "/r/annotator-out" = Err.permission (OUT_DIR "/r")))) :=
  ⟨(claim_C9_makedirs_total "/r" fsHasDir).1 rfl,
   (claim_C9_makedirs_total "/r" fsCollide).2
     (Err.fileCollision "/r/annotator-out") rfl⟩

/-! ### Files lying under a directory -/

/-- The files whose path lies strictly under directory `d`. -/
def filesInDir (fs : FS) (d : String) : List (String × String) :=
  fs.files.filter (fun x => strStarts (d ++ "/") x.1)

theorem strStarts_slash (d t : String) :
    strStarts (d ++ "/") (d ++ ("/" ++ t)) = true := by
  rw [← strAppend_assoc]
  exact strStarts_append _ _

theorem strStarts_tsvPath (R : String) :
    strStarts (OUT_DIR R ++ "/") (tsvPath R) = true :=
  strStarts_slash (OUT_DIR R) "paths.tsv"

theorem filesInDir_prepare {R : String} {fs fs1 : FS} {tr : List Event}
    (h : prepare R fs = (Except.ok fs1, tr))
    (hempty : filesInDir fs (OUT_DIR R) = []) :
    filesInDir fs1 (OUT_DIR R) = [(tsvPath R, tsvLine R)] := by
  obtain ⟨_, _, _, _, hfl, _, _⟩ := prepare_ok_facts h
  unfold filesInDir at hempty ⊢
  rw [List.filter_eq_nil_iff] at hempty
  have htail :
      (fs.files.filter (fun x => x.1 != tsvPath R)).filter
        (fun x => strStarts (OUT_DIR R ++ "/") x.1) = [] :=
    List.filter_eq_nil_iff.mpr (fun a ha => hempty a (List.mem_of_mem_filter ha))
  rw [hfl, setFile, List.filter_cons]
  simp [strStarts_tsvPath, htail]

/-- **C2 counterexample.** The claim says the output directory contains
exactly one file after `prepare`; starting from a directory that already
holds an unrelated file, a successful `prepare` leaves two files in it. -/
theorem claim_C2_counterexample :
    prepare "/r" fsJunk = (Except.ok fs1Junk, trDemo)
    ∧ (filesInDir fs1Junk (OUT_DIR "/r")).length = 2
    ∧ (2 : Nat) ≠ 1 :=
  ⟨rfl, rfl, by decide⟩

/-- **C2 (amended).** After a successful `prepare`, the output directory
exists and holds `paths.tsv` with content exactly
`<out>/checker.xml TAB <out>/scanner.xml NEWLINE`; it contains exactly that
one file when the directory held no files beforehand (pre-existing unrelated
files are kept, see C8). -/
theorem claim_C2_amended (R : String) (fs fs1 : FS) (tr : List Event)
    (h : prepare R fs = (Except.ok fs1, tr)) :
    dirExists fs1 (OUT_DIR R) = true
    ∧ fileContent fs1 (tsvPath R) = some (tsvLine R)
    ∧ tsvLine R
        = OUT_DIR R ++ "/checker.xml" ++ ("\t" ++ (OUT_DIR R ++ "/scanner.xml" ++ "\n"))
    ∧ (filesInDir fs (OUT_DIR R) = [] →
        filesInDir fs1 (OUT_DIR R) = [(tsvPath R, tsvLine R)]) := by
  obtain ⟨hd, hc, _, _, _, _, _⟩ := prepare_ok_facts h
  refine ⟨hd, hc, ?_, fun he => filesInDir_prepare h he⟩
  rw [tsvLine_eq, checkerPath_eq, scannerPath_eq, strAppend_assoc]

/-- Witness for the amended C2 at the empty filesystem. -/
theorem claim_C2_amended_witness :
    prepare "/r" fsEmpty = (Except.ok fs1Demo, trDemo)
    ∧ dirExists fs1Demo (OUT_DIR "/r") = true
    ∧ fileContent fs1Demo (tsvPath "/r") = some (tsvLine "/r")
    ∧ filesInDir fs1Demo (OUT_DIR "/r") = [(tsvPath "/r", tsvLine "/r")] := by
  have happ := claim_C2_amended "/r" fsEmpty fs1Demo trDemo rfl
  exact ⟨rfl, happ.1, happ.2.1, happ.2.2.2 rfl⟩

/-! ### Error propagation and ordering -/

theorem spawnEv_not_mem_prepare (R : String) (fs : FS) (args : List String) :
    Event.spawnEv args ∉ (prepare R fs).2 := by
  unfold prepare
  split
  · simp
  · split
    · simp
    · simp

/-- **C4.** Every failure of directory creation, file write, or process spawn
propagates unchanged to `run_annotator`'s caller, and errors arise in no
other way: no operation catches, retries, or converts an error, and no
partial-success result is returned. -/
theorem claim_C4_error_propagation (R home : String) (fs : FS)
    (spawn : List String → Except Err Nat) (e : Err) :
    (run_annotator R home fs spawn).1 = Except.error e ↔
      (makedirs (OUT_DIR R) fs = Except.error e
       ∨ (∃ fsm, makedirs (OUT_DIR R) fs = Except.ok fsm
            ∧ writeFile (tsvPath R) (tsvLine R) fsm = Except.error e)
       ∨ (∃ fs1, (prepare R fs).1 = Except.ok fs1
            ∧ spawn (commands R home) = Except.error e)) := by
  unfold run_annotator prepare
  cases hm : makedirs (OUT_DIR R) fs with
  | error em => simp [hm]
  | ok fsm =>
    cases hw : writeFile (tsvPath R) (tsvLine R) fsm with
    | error ew => simp [hw]
    | ok fs2 =>
      cases hs : spawn (commands R home) with
      | error es => simp [hw, hs]
      | ok c => simp [hw, hs]

/-- Witness for C4: a denied directory creation and a failed spawn each
propagate as the launcher's own error. -/
theorem claim_C4_error_propagation_witness :
    (run_annotator "/r" "/h" fsDenied (fun _ => Except.ok 0)).1
      = Except.error (Err.permission "/r/annotator-out")
    ∧ (run_annotator "/r" "/h" fsEmpty
        (fun _ => Except.error (Err.spawnFailure "java missing"))).1
      = Except.error (Err.spawnFailure "java missing") :=
  ⟨(claim_C4_error_propagation "/r" "/h" fsDenied (fun _ => Except.ok 0)
      (Err.permission "/r/annotator-out")).mpr (Or.inl rfl),
   (claim_C4_error_propagation "/r" "/h" fsEmpty
      (fun _ => Except.error (Err.spawnFailure "java missing"))
      (Err.spawnFailure "java missing")).mpr
     (Or.inr (Or.inr ⟨fs1Demo, rfl, rfl⟩))⟩

/-- **C6.** `prepare` runs first, unconditionally: whenever the external
process is spawned (the spawn event is in the run's trace), the trace is
exactly mkdir-then-write-then-spawn, and the state passed to the spawn has
the output directory created and `paths.tsv` written by this invocation. -/
theorem claim_C6_prepare_before_spawn (R home : String) (fs : FS)
    (spawn : List String → Except Err Nat)
    (h : Event.spawnEv (commands R home) ∈ (run_annotator R home fs spawn).2) :
    (run_annotator R home fs spawn).2 =
      [Event.mkdirEv (OUT_DIR R), Event.writeEv (tsvPath R) (tsvLine R),
       Event.spawnEv (commands R home)]
    ∧ ∃ fs1, prepare R fs =
        (Except.ok fs1,
         [Event.mkdirEv (OUT_DIR R), Event.writeEv (tsvPath R) (tsvLine R)])
      ∧ dirExists fs1 (OUT_DIR R) = true
      ∧ fileContent fs1 (tsvPath R) = some (tsvLine R) := by
  have hnotin := spawnEv_not_mem_prepare R fs (commands R home)
  rcases hp : prepare R fs with ⟨res, tr⟩
  rw [hp] at hnotin
  cases res with
  | error e =>
    simp only [run_annotator, hp] at h
    exact absurd h hnotin
  | ok fs1 =>
    obtain ⟨hd, hc, _, _, _, _, htr⟩ := prepare_ok_facts hp
    cases hs : spawn (commands R home) with
    | error es =>
      simp only [run_annotator, hp, hs] at h
      exact absurd h hnotin
    | ok c =>
      subst htr
      constructor
      · simp [run_annotator, hp, hs]
      · exact ⟨fs1, rfl, hd, hc⟩

/-- Witness for C6 at the empty filesystem with an always-succeeding spawn. -/
theorem claim_C6_prepare_before_spawn_witness :
    Event.spawnEv (commands "/r" "/h")
        ∈ (run_annotator "/r" "/h" fsEmpty (fun _ => Except.ok 0)).2
    ∧ ((run_annotator "/r" "/h" fsEmpty (fun _ => Except.ok 0)).2 =
        [Event.mkdirEv (OUT_DIR "/r"), Event.writeEv (tsvPath "/r") (tsvLine "/r"),
         Event.spawnEv (commands "/r" "/h")]
       ∧ ∃ fs1, prepare "/r" fsEmpty =
           (Except.ok fs1,
            [Event.mkdirEv (OUT_DIR "/r"), Event.writeEv (tsvPath "/r") (tsvLine "/r")])
         ∧ dirExists fs1 (OUT_DIR "/r") = true
         ∧ fileContent fs1 (tsvPath "/r") = some (tsvLine "/r")) := by
  have hmem : Event.spawnEv (commands "/r" "/h")
      ∈ (run_annotator "/r" "/h" fsEmpty (fun _ => Except.ok 0)).2 := by
    decide
  exact ⟨hmem, claim_C6_prepare_before_spawn "/r" "/h" fsEmpty _ hmem⟩

/-! ### Derivation of the output directory -/

/-- **C10.** The repository root is the directory one level above the parent
directory of the resolved script location (its path with the last two
components dropped); the output directory is that root plus the fixed name
`annotator-out`; and every path the launcher writes or passes to the external
process (`paths.tsv`, `checker.xml`, `scanner.xml`, the `-d` and `-cp`
arguments) lies under that same output directory. -/
theorem claim_C10_out_dir_derivation (ps : List String)
    (dname fname home : String) :
    REPO (ps ++ [dname, fname]) = pathStr ps
    ∧ OUT_DIR (pathStr ps) = pathStr ps ++ "/annotator-out"
    ∧ tsvPath (pathStr ps) = OUT_DIR (pathStr ps) ++ "/paths.tsv"
    ∧ checkerPath (pathStr ps) = OUT_DIR (pathStr ps) ++ "/checker.xml"
    ∧ scannerPath (pathStr ps) = OUT_DIR (pathStr ps) ++ "/scanner.xml"
    ∧ strStarts (OUT_DIR (pathStr ps) ++ "/") (tsvPath (pathStr ps)) = true
    ∧ strStarts (OUT_DIR (pathStr ps) ++ "/") (checkerPath (pathStr ps)) = true
    ∧ strStarts (OUT_DIR (pathStr ps) ++ "/") (scannerPath (pathStr ps)) = true
    ∧ (commands (pathStr ps) home).get? 4 = some (OUT_DIR (pathStr ps))
    ∧ (commands (pathStr ps) home).get? 8 = some (tsvPath (pathStr ps)) := by
  refine ⟨?_, rfl, rfl, rfl, rfl, strStarts_tsvPath (pathStr ps),
    strStarts_slash (OUT_DIR (pathStr ps)) "checker.xml",
    strStarts_slash (OUT_DIR (pathStr ps)) "scanner.xml", rfl, rfl⟩
  unfold REPO
  have hdrop : (ps ++ [dname, fname]).dropLast.dropLast = ps := by
    simp
  rw [hdrop]
